import Mathlib

/-!
Verification of the room-presence detection core of the XIAO esp-csi
repository, shallowly embedded in Lean 4.

The embedding covers the two firmware images:
* `recv_master_RX1/main/app_main.c` — the fusing master: per-link
  reclassification (`recalculate_link_status`), multi-link quorum fusion
  (`fuse_detection_results`), and the HTTP sensitivity update path.
* `recv_slave/main/app_main.c` — the slave: the windowed classifier inside
  `wifi_radar_cb`, and the ESP-NOW command handler (`espnow_recv_cb`).

Modelling conventions:
* C `float` values are modelled as `ℚ`.  All float operations appearing in
  the modelled code are comparisons, multiplications, additions and
  divisions of small decimal constants, which the rational model reflects
  faithfully for exactly representable inputs.
* C `uint32_t` timestamps are modelled as `ℕ` together with an explicit
  wrapping subtraction `u32_sub` (the code computes `now - last_update` on
  unsigned 32-bit values).
* The fixed 25-slot circular buffers are `List ℚ` values of length 25,
  updated with `List.set` at index `count % 25`, exactly as the C code
  writes slot `buff_count % RADAR_BUFF_MAX_LEN`.
-/

/-- Constant `RADAR_BUFF_MAX_LEN` from both firmware files. -/
def RADAR_BUFF_MAX_LEN : ℕ := 25

/-- Constant `LINK_TIMEOUT_MS` from the master firmware. -/
def LINK_TIMEOUT_MS : ℕ := 3000

/-- Value `2^32`, the wrap-around modulus of C `uint32_t` arithmetic. -/
def U32_MOD : ℕ := 4294967296

/-- Wrapping unsigned 32-bit subtraction, as performed by `now - last_update`
on `uint32_t` operands in the C code. -/
def u32_sub (a b : ℕ) : ℕ := (a % U32_MOD + U32_MOD - b % U32_MOD) % U32_MOD

/-! ## The bubble sort used by `trimmean` and `median`

Both C files sort the sample window with an in-place ascending bubble sort
(`if (sorted[j] > sorted[j+1]) swap`).  We model one left-to-right pass as
`bubblePass` and the full sort as `length`-many passes; the C code's
shrinking inner loop performs the same comparisons except for extra
comparisons over an already-sorted suffix, which swap nothing. -/

/-- Inner step of one bubble pass, carrying the element currently under the
comparison cursor: the carried value is compared with the next slot and the
larger of the two moves right (`sorted[j] > sorted[j+1]` triggers a swap). -/
def bubblePassAux (carry : ℚ) : List ℚ → List ℚ
  | [] => [carry]
  | b :: rest => if b < carry then b :: bubblePassAux carry rest
                 else carry :: bubblePassAux b rest

/-- One left-to-right bubble pass of the C sort. -/
def bubblePass : List ℚ → List ℚ
  | [] => []
  | a :: rest => bubblePassAux a rest

/-- Iterated bubble passes (the outer loop of the C sort). -/
def bsortAux : ℕ → List ℚ → List ℚ
  | 0, l => l
  | n + 1, l => bsortAux n (bubblePass l)

/-- The ascending bubble sort from the C `trimmean`/`median` helpers. -/
def bubbleSort (l : List ℚ) : List ℚ := bsortAux l.length l

/-! ## `trimmean` and `median`

Identical helper functions appear in both firmware files.  The C `trimmean`
computes `trim = (size_t)(len * percent / 2)` in float arithmetic and then
averages `sorted[trim .. len-trim)`; the loop bound `len - trim` is a
`size_t` subtraction, which matches truncated `ℕ` subtraction whenever
`trim ≤ len` (our theorems only concern that regime). -/

/-- The `trimmean` helper: sort ascending, drop `⌊len·percent/2⌋` samples at
each end, average the rest (`0` for an empty window or an empty middle). -/
def trimmean (l : List ℚ) (percent : ℚ) : ℚ :=
  if l.length = 0 then 0
  else
    let sorted := bubbleSort l
    let trim : ℕ := (((l.length : ℚ) * percent / 2).floor).toNat
    let idx := List.range' trim (l.length - trim - trim)
    let sum := (idx.map (fun i => sorted.getD i 0)).sum
    let count := idx.length
    if 0 < count then sum / count else 0

/-- The `median` helper: sort ascending, take the middle element (mean of the
two middle elements for even length, `0` for an empty window). -/
def median (l : List ℚ) : ℚ :=
  if l.length = 0 then 0
  else
    let sorted := bubbleSort l
    if l.length % 2 = 0 then
      (sorted.getD (l.length / 2 - 1) 0 + sorted.getD (l.length / 2) 0) / 2
    else sorted.getD (l.length / 2) 0

/-- Closed-form trimmed mean from the spec: sort ascending, drop
`⌊len·percent/2⌋` elements from each end, average the remainder. -/
def trimmedMeanSpec (l : List ℚ) (percent : ℚ) : ℚ :=
  let sorted := List.insertionSort (· ≤ ·) l
  let trim : ℕ := (((l.length : ℚ) * percent / 2).floor).toNat
  let mid := (sorted.drop trim).take (l.length - 2 * trim)
  mid.sum / mid.length

/-- Closed-form median from the spec: sort ascending, take the middle element
(average of the two middle elements for even length). -/
def medianSpec (l : List ℚ) : ℚ :=
  let sorted := List.insertionSort (· ≤ ·) l
  if l.length % 2 = 0 then
    (sorted.getD (l.length / 2 - 1) 0 + sorted.getD (l.length / 2) 0) / 2
  else sorted.getD (l.length / 2) 0

/-! ## Master state and per-link data

Structures `link_status_t` and `master_state_t` from
`recv_master_RX1/main/app_main.c`, with the local CSI buffers, thresholds,
the three per-link records (0 = local, 1-2 = slaves), the fused result and
the calibration fields. -/

/-- Translation of `link_status_t`. -/
structure LinkStatus where
  active : Bool
  room_status : Bool
  human_status : Bool
  wander : ℚ
  jitter : ℚ
  rssi : ℤ
  last_update : ℕ
  wander_sensitivity : ℚ
  jitter_sensitivity : ℚ
deriving DecidableEq

/-- Translation of `master_state_t`. -/
structure MasterState where
  wander_buff : List ℚ
  jitter_buff : List ℚ
  buff_count : ℕ
  wander_threshold : ℚ
  jitter_threshold : ℚ
  link0 : LinkStatus
  link1 : LinkStatus
  link2 : LinkStatus
  room_status : Bool
  human_status : Bool
  calibrating : Bool
  calibration_start_time : ℕ
  calibration_duration_ms : ℕ
deriving DecidableEq

/-- Initial value of one link in the master's `g_state` initializer: all
fields zero except the sensitivities `0.15` and `0.20`. -/
def initLink : LinkStatus :=
  { active := false, room_status := false, human_status := false, wander := 0, jitter := 0
    rssi := 0, last_update := 0, wander_sensitivity := 3/20, jitter_sensitivity := 1/5 }

/-- Initial master state `g_state` (before `nvs_load_settings`):
`wander_threshold = 0`, `jitter_threshold = 0.0003`, duration 30000 ms. -/
def masterInit : MasterState :=
  { wander_buff := List.replicate RADAR_BUFF_MAX_LEN 0
    jitter_buff := List.replicate RADAR_BUFF_MAX_LEN 0
    buff_count := 0
    wander_threshold := 0
    jitter_threshold := 3/10000
    link0 := initLink, link1 := initLink, link2 := initLink
    room_status := false, human_status := false
    calibrating := false, calibration_start_time := 0, calibration_duration_ms := 30000 }

namespace Master

/-- Translation of `recalculate_link_status`: for an active link, presence is
`wander * wander_sensitivity > wander_threshold` gated by
`wander_threshold > 0`, and motion is `jitter * jitter_sensitivity >
jitter_threshold` gated by `jitter_threshold > 0`; an inactive link is left
untouched (the C function returns early). -/
def recalculate_link_status (wth jth : ℚ) (l : LinkStatus) : LinkStatus :=
  if l.active = false then l
  else
    let room := if 0 < wth then decide (wth < l.wander * l.wander_sensitivity) else false
    let human := if 0 < jth then decide (jth < l.jitter * l.jitter_sensitivity) else false
    { l with room_status := room, human_status := human }

/-- Liveness test from the fusion loop:
`links[i].active && (now - links[i].last_update) < LINK_TIMEOUT_MS`. -/
def link_is_live (now : ℕ) (l : LinkStatus) : Bool :=
  l.active && decide (u32_sub now l.last_update < LINK_TIMEOUT_MS)

/-- Per-link body of the fusion loop in `fuse_detection_results`: a live link
is (for the local link 0) reclassified and counted; a dead or stale link is
marked inactive and not counted.  The second component records whether the
link was counted active. -/
def fuse_link (isLocal : Bool) (wth jth : ℚ) (now : ℕ) (l : LinkStatus) :
    LinkStatus × Bool :=
  if link_is_live now l then
    (if isLocal then recalculate_link_status wth jth l else l, true)
  else ({ l with active := false }, false)

/-- Translation of `fuse_detection_results`: walk the three links, count
active/detecting/moving links, pick the adaptive quorum
(`2` when at least two links are active, else `1`) and publish
`room_status = detection_count ≥ quorum`,
`human_status = room_status && motion_count ≥ quorum`. -/
def fuse_detection_results (now : ℕ) (s : MasterState) : MasterState :=
  let r0 := fuse_link true s.wander_threshold s.jitter_threshold now s.link0
  let r1 := fuse_link false s.wander_threshold s.jitter_threshold now s.link1
  let r2 := fuse_link false s.wander_threshold s.jitter_threshold now s.link2
  let active_count : ℕ :=
    (if r0.2 then 1 else 0) + (if r1.2 then 1 else 0) + (if r2.2 then 1 else 0)
  let detection_count : ℕ :=
    (if r0.2 && (r0.1.room_status || r0.1.human_status) then 1 else 0)
    + (if r1.2 && (r1.1.room_status || r1.1.human_status) then 1 else 0)
    + (if r2.2 && (r2.1.room_status || r2.1.human_status) then 1 else 0)
  let motion_count : ℕ :=
    (if r0.2 && r0.1.human_status then 1 else 0)
    + (if r1.2 && r1.1.human_status then 1 else 0)
    + (if r2.2 && r2.1.human_status then 1 else 0)
  let min_detection : ℕ := if 2 ≤ active_count then 2 else 1
  let room := decide (min_detection ≤ detection_count)
  let human := room && decide (min_detection ≤ motion_count)
  { s with link0 := r0.1, link1 := r1.1, link2 := r2.1
           room_status := room, human_status := human }

/-- Number of links whose `active` flag is set in a master state. -/
def active_links (s : MasterState) : ℕ :=
  (if s.link0.active then 1 else 0) + (if s.link1.active then 1 else 0)
  + (if s.link2.active then 1 else 0)

/-- Number of active links whose room or motion flag is set. -/
def detecting_links (s : MasterState) : ℕ :=
  (if s.link0.active && (s.link0.room_status || s.link0.human_status) then 1 else 0)
  + (if s.link1.active && (s.link1.room_status || s.link1.human_status) then 1 else 0)
  + (if s.link2.active && (s.link2.room_status || s.link2.human_status) then 1 else 0)

/-- Number of active links whose motion flag is set. -/
def moving_links (s : MasterState) : ℕ :=
  (if s.link0.active && s.link0.human_status then 1 else 0)
  + (if s.link1.active && s.link1.human_status then 1 else 0)
  + (if s.link2.active && s.link2.human_status then 1 else 0)

end Master

/-- Accessor for the master's link array `g_state.links[i]` (`i` is 0, 1 or 2;
indices past 2 read link 2, but all theorems use `i < 3`). -/
def getLink (i : ℕ) (s : MasterState) : LinkStatus :=
  if i = 0 then s.link0 else if i = 1 then s.link1 else s.link2

/-- Clears link `i`'s `active` flag. -/
def deactivateLink (i : ℕ) (s : MasterState) : MasterState :=
  if i = 0 then { s with link0 := { s.link0 with active := false } }
  else if i = 1 then { s with link1 := { s.link1 with active := false } }
  else { s with link2 := { s.link2 with active := false } }

/-- Translation of the update half of the master's `http_post_sensitivity`
handler (after JSON parsing): a link index outside `0..2` is answered with an
error and leaves the state unchanged; otherwise each of the two parsed values
is applied only when it lies in `[0.001, 5.0]`, an out-of-range value being
dropped without touching the stored sensitivity and without an error
response.  The C parser defaults a missing value to `-1`, which the range
check likewise rejects. -/
def sens_upd (wander_sens jitter_sens : ℚ) (l : LinkStatus) : LinkStatus :=
  let l1 := if 1/1000 ≤ wander_sens ∧ wander_sens ≤ 5 then
      { l with wander_sensitivity := wander_sens } else l
  if 1/1000 ≤ jitter_sens ∧ jitter_sens ≤ 5 then
      { l1 with jitter_sensitivity := jitter_sens } else l1

/-- Dispatch of the update to the selected link (`link` parses as a C `int`,
defaulting to `-1` when absent). -/
def http_post_sensitivity_update (link : ℤ) (wander_sens jitter_sens : ℚ)
    (s : MasterState) : MasterState :=
  if link < 0 ∨ 2 < link then s
  else if link = 0 then { s with link0 := sens_upd wander_sens jitter_sens s.link0 }
  else if link = 1 then { s with link1 := sens_upd wander_sens jitter_sens s.link1 }
  else { s with link2 := sens_upd wander_sens jitter_sens s.link2 }

/-! ## Slave state and classifier

Structures and functions from `recv_slave/main/app_main.c`. -/

/-- Translation of the slave's `detection_state_t`. -/
structure DetectState where
  wander_buff : List ℚ
  jitter_buff : List ℚ
  buff_count : ℕ
  wander_threshold : ℚ
  jitter_threshold : ℚ
  wander_sensitivity : ℚ
  jitter_sensitivity : ℚ
  room_status : Bool
  human_status : Bool
  calibrating : Bool
deriving DecidableEq

/-- Initial slave state `g_detect` (before `nvs_load_settings`): non-zero
default thresholds `0.01` / `0.001` and sensitivities `0.15` / `0.20`. -/
def slaveInit : DetectState :=
  { wander_buff := List.replicate RADAR_BUFF_MAX_LEN 0
    jitter_buff := List.replicate RADAR_BUFF_MAX_LEN 0
    buff_count := 0
    wander_threshold := 1/100
    jitter_threshold := 1/1000
    wander_sensitivity := 3/20
    jitter_sensitivity := 1/5
    room_status := false, human_status := false, calibrating := false }

/-- Translation of the slave's `slave_report_t` message. -/
structure SlaveReport where
  msg_type : ℕ
  node_id : ℕ
  room_status : Bool
  human_status : Bool
  wander : ℚ
  jitter : ℚ
  rssi : ℤ
  timestamp : ℕ
deriving DecidableEq

/-- Observable outcome of one slave radar callback: the new detection state,
the LED display issued (`(room, moving, calibrating)`, or `none` during
warm-up when the callback returns before updating the LED), the report sent
to the master (if any) and the updated `s_last_send_time`. -/
structure SlaveStepResult where
  state : DetectState
  led : Option (Bool × Bool × Bool)
  report : Option SlaveReport
  last_send : ℕ
deriving DecidableEq

/-- Presence-vote count of the slave classifier: the loop in `wifi_radar_cb`
tests the same condition `has_valid_threshold && wander_average *
wander_sensitivity > wander_threshold` once per each of the `5` iterations. -/
def someone_count (has_valid_threshold : Bool) (wander_average wsens wth : ℚ) : ℕ :=
  (List.range 5).countP (fun _ => has_valid_threshold && decide (wth < wander_average * wsens))

/-- Motion-vote count of the slave classifier: walk the last `5` raw jitter
samples backwards from slot `(buff_count - 1 - i) % 25`; a sample `j` votes
when the threshold is calibrated (`> 0.0001`) and `j * jitter_sensitivity`
exceeds the threshold, or exceeds the median and `j > 0.0002`. -/
def move_count (cnt : ℕ) (jbuff : List ℚ) (jitter_median jsens jth : ℚ) : ℕ :=
  (List.range 5).countP (fun i =>
    let x := jbuff.getD ((cnt - 1 - i) % RADAR_BUFF_MAX_LEN) 0
    decide (1/10000 < jth) &&
      (decide (jth < x * jsens) || (decide (jitter_median < x * jsens) && decide (1/5000 < x))))

/-- Translation of the slave's `wifi_radar_cb`: store the sample in the
circular buffers, return during warm-up (`buff_count < 5`), smooth with
`trimmean`/`median`, count presence and motion votes, store
`room_status`/`human_status`, then either show the calibrating LED and skip
sending, or show the status LED and report to the master when at least
100 ms have passed since the last send. -/
def slaveStep (nodeId : ℕ) (now last_send : ℕ) (s : DetectState)
    (wander jitter : ℚ) (rssi : ℤ) : SlaveStepResult :=
  let wbuff := s.wander_buff.set (s.buff_count % RADAR_BUFF_MAX_LEN) wander
  let jbuff := s.jitter_buff.set (s.buff_count % RADAR_BUFF_MAX_LEN) jitter
  let cnt := s.buff_count + 1
  let s1 := { s with wander_buff := wbuff, jitter_buff := jbuff, buff_count := cnt }
  if cnt < 5 then ⟨s1, none, none, last_send⟩
  else
    let wander_average := trimmean wbuff (1/2)
    let jitter_median := median jbuff
    let has_valid_threshold := decide (1/10000 < s.wander_threshold)
    let someone := someone_count has_valid_threshold wander_average
      s.wander_sensitivity s.wander_threshold
    let move := move_count cnt jbuff jitter_median s.jitter_sensitivity s.jitter_threshold
    let room := has_valid_threshold && decide (1 ≤ someone)
    let human := decide (1/10000 < s.jitter_threshold) && decide (2 ≤ move)
    let s2 := { s1 with room_status := room, human_status := human }
    if s2.calibrating then ⟨s2, some (false, false, true), none, last_send⟩
    else if 100 ≤ u32_sub now last_send then
      ⟨s2, some (room, human, false),
        some ⟨1, nodeId, room, human, wander_average, jitter_median, rssi, now⟩, now⟩
    else ⟨s2, some (room, human, false), none, last_send⟩

/-- Feeding a list of `(wander, jitter)` samples through the slave callback,
tracking only the detection state. -/
def slaveRun (samples : List (ℚ × ℚ)) (s : DetectState) : DetectState :=
  samples.foldl (fun st p => (slaveStep 2 0 0 st p.1 p.2 0).state) s

/-- Translation of case `0x13` of the slave's `espnow_recv_cb` with the
payload fields already decoded (the handler requires `len >= 10`): if the
target node id matches this node's id, both sensitivities are copied from
the message unconditionally; otherwise the message is ignored. -/
def slave_set_sensitivity (nodeId target : ℕ) (wander_sens jitter_sens : ℚ)
    (s : DetectState) : DetectState :=
  if target = nodeId then
    { s with wander_sensitivity := wander_sens, jitter_sensitivity := jitter_sens }
  else s

/-! ## Concrete fixtures used by closed checks -/

/-- A live reporting link: active, both flags set, fresh at time 0. -/
def demoLink : LinkStatus :=
  { active := true, room_status := true, human_status := true, wander := 1, jitter := 1
    rssi := 0, last_update := 0, wander_sensitivity := 3/20, jitter_sensitivity := 1/5 }

/-- Master state with two live slave links reporting presence and motion. -/
def demoMaster : MasterState := { masterInit with link1 := demoLink, link2 := demoLink }

/-- The same two-link master state while a calibration is running. -/
def calibratingMaster : MasterState := { demoMaster with calibrating := true }

/-- An active local link with a wander/jitter reading of `1` and sensitivity
`0.25`, used against thresholds strictly between `0` and the `0.0001`
epsilon. -/
def subEpsilonLink : LinkStatus :=
  { active := true, room_status := false, human_status := false, wander := 1, jitter := 1
    rssi := 0, last_update := 0, wander_sensitivity := 1/4, jitter_sensitivity := 1/4 }

/-- A warmed-up slave whose wander threshold `1/16384` is positive but below
the `0.0001` epsilon, with smoothed wander `1` and sensitivity `0.25`. -/
def subEpsilonSlave : DetectState :=
  { slaveInit with
    wander_buff := List.replicate RADAR_BUFF_MAX_LEN 1,
    jitter_buff := List.replicate RADAR_BUFF_MAX_LEN 1,
    buff_count := 24, wander_threshold := 1/16384, wander_sensitivity := 1/4 }

/-- A warmed-up slave in calibration mode observing strong readings. -/
def calibratingSlave : DetectState :=
  { slaveInit with
    wander_buff := List.replicate RADAR_BUFF_MAX_LEN 1,
    jitter_buff := List.replicate RADAR_BUFF_MAX_LEN 1,
    buff_count := 24, calibrating := true }

/-- A warmed-up slave whose two thresholds sit exactly at the `0.0001`
epsilon (so the classifier must stay silent). -/
def uncalibratedSlave : DetectState :=
  { slaveInit with
    buff_count := 24,
    wander_threshold := 1/10000, jitter_threshold := 1/10000 }

/-! ## Theorems -/

/-- When no wrap-around occurs the unsigned subtraction is the plain
difference. -/
theorem u32_sub_eq_sub (a b : ℕ) (hba : b ≤ a) (h : a - b < U32_MOD) :
    u32_sub a b = a - b := by
  unfold u32_sub U32_MOD at *
  omega


theorem bubblePassAux_perm (a : ℚ) (l : List ℚ) :
    List.Perm (bubblePassAux a l) (a :: l) := by
  induction l generalizing a with
  | nil => rfl
  | cons b rest ih =>
    rw [bubblePassAux]
    split
    · exact ((ih a).cons b).trans (List.Perm.swap a b rest)
    · exact (ih b).cons a

theorem bubblePass_perm (l : List ℚ) : List.Perm (bubblePass l) l := by
  cases l with
  | nil => rfl
  | cons a rest => exact bubblePassAux_perm a rest

/-- A bubble pass moves some maximal element to the last position. -/
theorem bubblePassAux_max (a : ℚ) (l : List ℚ) :
    ∃ l' m, bubblePassAux a l = l' ++ [m] ∧ ∀ x ∈ l', x ≤ m := by
  induction l generalizing a with
  | nil => exact ⟨[], a, rfl, by simp⟩
  | cons b rest ih =>
    rw [bubblePassAux]
    split
    · obtain ⟨l', m, heq, hub⟩ := ih a
      refine ⟨b :: l', m, by simp [heq], ?_⟩
      have ham : a ≤ m := by
        have : a ∈ l' ++ [m] := heq ▸ (bubblePassAux_perm a rest).mem_iff.mpr (by simp)
        rcases List.mem_append.mp this with h | h
        · exact hub a h
        · simp_all
      intro x hx
      rcases List.mem_cons.mp hx with rfl | hx
      · exact le_trans (le_of_lt (by assumption)) ham
      · exact hub x hx
    · obtain ⟨l', m, heq, hub⟩ := ih b
      refine ⟨a :: l', m, by simp [heq], ?_⟩
      have hbm : b ≤ m := by
        have : b ∈ l' ++ [m] := heq ▸ (bubblePassAux_perm b rest).mem_iff.mpr (by simp)
        rcases List.mem_append.mp this with h | h
        · exact hub b h
        · simp_all
      intro x hx
      rcases List.mem_cons.mp hx with rfl | hx
      · exact le_trans (le_of_not_lt (by assumption)) hbm
      · exact hub x hx

/-- A bubble pass over a nonempty list moves some maximal element to the
last position. -/
theorem bubblePass_max (a : ℚ) (l : List ℚ) :
    ∃ l' m, bubblePass (a :: l) = l' ++ [m] ∧ ∀ x ∈ l', x ≤ m :=
  bubblePassAux_max a l

theorem bubblePassAux_append_max (a : ℚ) (l : List ℚ) (m : ℚ)
    (hcarry : a ≤ m) (h : ∀ x ∈ l, x ≤ m) :
    bubblePassAux a (l ++ [m]) = bubblePassAux a l ++ [m] := by
  induction l generalizing a with
  | nil =>
    have hm : ¬ m < a := not_lt.mpr hcarry
    simp [bubblePassAux, hm]
  | cons b rest ih =>
    have hb : b ≤ m := h b (List.mem_cons_self b rest)
    have hrest : ∀ x ∈ rest, x ≤ m := fun x hx => h x (List.mem_cons_of_mem b hx)
    rw [List.cons_append, bubblePassAux, bubblePassAux]
    split
    · rw [ih a hcarry hrest]
      simp
    · rw [ih b hb hrest]
      simp

/-- A bubble pass does not move a trailing element that bounds the rest. -/
theorem bubblePass_append_max (l : List ℚ) (m : ℚ) (h : ∀ x ∈ l, x ≤ m) :
    bubblePass (l ++ [m]) = bubblePass l ++ [m] := by
  cases l with
  | nil => rfl
  | cons a rest =>
    have ha : a ≤ m := h a (List.mem_cons_self a rest)
    have hrest : ∀ x ∈ rest, x ≤ m := fun x hx => h x (List.mem_cons_of_mem a hx)
    exact bubblePassAux_append_max a rest m ha hrest

/-- Iterated passes also leave a trailing upper bound in place. -/
theorem bsortAux_append_max (n : ℕ) (l : List ℚ) (m : ℚ) (h : ∀ x ∈ l, x ≤ m) :
    bsortAux n (l ++ [m]) = bsortAux n l ++ [m] := by
  induction n generalizing l with
  | zero => rfl
  | succ n ih =>
    have h' : ∀ x ∈ bubblePass l, x ≤ m := fun x hx =>
      h x ((bubblePass_perm l).mem_iff.mp hx)
    simp only [bsortAux, bubblePass_append_max l m h, ih (bubblePass l) h']

theorem bsortAux_perm (n : ℕ) (l : List ℚ) : List.Perm (bsortAux n l) l := by
  induction n generalizing l with
  | zero => rfl
  | succ n ih => exact (ih (bubblePass l)).trans (bubblePass_perm l)

theorem bsortAux_sorted (n : ℕ) :
    ∀ l : List ℚ, l.length ≤ n → (bsortAux n l).Sorted (· ≤ ·) := by
  induction n with
  | zero =>
    intro l hl
    rw [List.length_eq_zero.mp (Nat.le_zero.mp hl)]
    exact List.sorted_nil
  | succ n ih =>
    intro l hl
    match l with
    | [] =>
      have h0 : bubblePass [] = [] := by simp [bubblePass]
      simpa [bsortAux, h0] using ih [] (by simp)
    | a :: t =>
      obtain ⟨l', m, heq, hub⟩ := bubblePass_max a t
      have hlen : l'.length = t.length := by
        have := (bubblePass_perm (a :: t)).length_eq
        rw [heq] at this
        simp at this
        omega
      have hlen' : l'.length ≤ n := by
        simp at hl
        omega
      have hub' : ∀ x ∈ bsortAux n l', x ≤ m := fun x hx =>
        hub x ((bsortAux_perm n l').mem_iff.mp hx)
      rw [show bsortAux (n + 1) (a :: t) = bsortAux n (bubblePass (a :: t)) from rfl,
        heq, bsortAux_append_max n l' m hub]
      exact List.pairwise_append.mpr ⟨ih l' hlen', List.sorted_singleton m,
        fun x hx y hy => by rw [List.mem_singleton.mp hy]; exact hub' x hx⟩

theorem bubbleSort_perm (l : List ℚ) : List.Perm (bubbleSort l) l := bsortAux_perm l.length l

theorem bubbleSort_sorted (l : List ℚ) : (bubbleSort l).Sorted (· ≤ ·) :=
  bsortAux_sorted l.length l le_rfl

/-- The C bubble sort computes the unique ascending reordering, i.e. the same
list as Mathlib's insertion sort. -/
theorem bubbleSort_eq_insertionSort (l : List ℚ) :
    bubbleSort l = List.insertionSort (· ≤ ·) l :=
  List.eq_of_perm_of_sorted
    ((bubbleSort_perm l).trans (List.perm_insertionSort (· ≤ ·) l).symm)
    (bubbleSort_sorted l) (List.sorted_insertionSort (· ≤ ·) l)


/-- Reading consecutive indices out of a list is the corresponding
drop/take slice. -/
theorem map_getD_range' (l : List ℚ) (a b : ℕ) (h : a + b ≤ l.length) :
    (List.range' a b).map (fun i => l.getD i 0) = (l.drop a).take b := by
  induction b generalizing a with
  | zero => simp
  | succ b ih =>
    rw [List.range'_succ, List.map_cons, ih (a + 1) (by omega)]
    have ha : a < l.length := by omega
    rw [List.getD_eq_getElem l 0 ha]
    rw [List.drop_eq_getElem_cons ha]
    rfl

/-- Middle-slice extraction: the code's sum over `sorted[trim .. len-trim)`
equals the spec's drop/take slice, and `trimmean` matches the closed-form
trimmed mean whenever the trimmed middle is nonempty. -/
theorem trimmean_eq_trimmedMeanSpec (l : List ℚ) (percent : ℚ)
    (hlen : 1 ≤ l.length)
    (htrim : 2 * (((l.length : ℚ) * percent / 2).floor).toNat < l.length) :
    trimmean l percent = trimmedMeanSpec l percent := by
  have h0 : ¬ l.length = 0 := by omega
  have hslen : (List.insertionSort (· ≤ ·) l).length = l.length :=
    (List.perm_insertionSort (· ≤ ·) l).length_eq
  unfold trimmean trimmedMeanSpec
  rw [if_neg h0, bubbleSort_eq_insertionSort]
  set trim := (((l.length : ℚ) * percent / 2).floor).toNat with htd
  have hb : l.length - trim - trim = l.length - 2 * trim := by omega
  dsimp only
  rw [hb, map_getD_range' (List.insertionSort (· ≤ ·) l) trim (l.length - 2 * trim)
    (by omega)]
  have hcount : (List.range' trim (l.length - 2 * trim)).length = l.length - 2 * trim := by
    simp [List.length_range']
  have hmid : (((List.insertionSort (· ≤ ·) l).drop trim).take (l.length - 2 * trim)).length
      = l.length - 2 * trim := by
    simp [List.length_take, List.length_drop, hslen]
    omega
  rw [hcount, hmid, if_pos (by omega : 0 < l.length - 2 * trim)]

/-- Lemma: `median` matches the closed-form median on every window. -/
theorem median_eq_medianSpec (l : List ℚ) : median l = medianSpec l := by
  by_cases h : l.length = 0
  · rw [List.length_eq_zero.mp h]
    simp [median, medianSpec, List.insertionSort]
  · unfold median medianSpec
    rw [if_neg h, bubbleSort_eq_insertionSort]


/-- Reclassification never changes a link's `active` flag. -/
theorem Master.recalculate_active (wth jth : ℚ) (l : LinkStatus) :
    (Master.recalculate_link_status wth jth l).active = l.active := by
  unfold Master.recalculate_link_status
  split <;> rfl

/-- The updated link's `active` flag coincides with the loop's decision to
count the link. -/
theorem Master.fuse_link_active (isLocal : Bool) (wth jth : ℚ) (now : ℕ) (l : LinkStatus) :
    (Master.fuse_link isLocal wth jth now l).1.active = (Master.fuse_link isLocal wth jth now l).2 := by
  unfold Master.fuse_link
  by_cases h : Master.link_is_live now l = true
  · have hact : l.active = true := by
      unfold Master.link_is_live at h
      simp only [Bool.and_eq_true] at h
      exact h.1
    simp [h, Master.recalculate_active, hact]
    split <;> simp [Master.recalculate_active, hact]
  · simp [h]



/-- An out-of-range wander value leaves the stored wander sensitivity
unchanged. -/
theorem sens_upd_wander_out (ws js : ℚ) (l : LinkStatus)
    (h : ¬ (1/1000 ≤ ws ∧ ws ≤ 5)) :
    (sens_upd ws js l).wander_sensitivity = l.wander_sensitivity := by
  unfold sens_upd
  rw [if_neg h]
  split <;> rfl

/-- An out-of-range jitter value leaves the stored jitter sensitivity
unchanged. -/
theorem sens_upd_jitter_out (ws js : ℚ) (l : LinkStatus)
    (h : ¬ (1/1000 ≤ js ∧ js ≤ 5)) :
    (sens_upd ws js l).jitter_sensitivity = l.jitter_sensitivity := by
  unfold sens_upd
  rw [if_neg h]
  split <;> rfl

/-- The detection state computed by a warmed-up slave callback, written out
explicitly. -/
theorem slaveStep_state_warm (nodeId now ls : ℕ) (s : DetectState) (w j : ℚ)
    (r : ℤ) (h5 : 4 ≤ s.buff_count) :
    (slaveStep nodeId now ls s w j r).state =
      (let wbuff := s.wander_buff.set (s.buff_count % RADAR_BUFF_MAX_LEN) w
       let jbuff := s.jitter_buff.set (s.buff_count % RADAR_BUFF_MAX_LEN) j
       let cnt := s.buff_count + 1
       let wander_average := trimmean wbuff (1/2)
       let jitter_median := median jbuff
       let has_valid_threshold := decide ((1:ℚ)/10000 < s.wander_threshold)
       let someone := someone_count has_valid_threshold wander_average
         s.wander_sensitivity s.wander_threshold
       let move := move_count cnt jbuff jitter_median
         s.jitter_sensitivity s.jitter_threshold
       { s with wander_buff := wbuff, jitter_buff := jbuff, buff_count := cnt
                room_status := has_valid_threshold && decide (1 ≤ someone)
                human_status := decide ((1:ℚ)/10000 < s.jitter_threshold)
                  && decide (2 ≤ move) }) := by
  unfold slaveStep
  rw [if_neg (by omega : ¬ s.buff_count + 1 < 5)]
  dsimp only
  split
  · rfl
  · split <;> rfl

/-- Each of the slave's five presence votes tests the same condition, so the
count is `5` when the condition holds and `0` otherwise. -/
theorem someone_count_eq (has : Bool) (wavg wsens wth : ℚ) :
    someone_count has wavg wsens wth
      = if has && decide (wth < wavg * wsens) then 5 else 0 := by
  unfold someone_count
  cases h : has && decide (wth < wavg * wsens) <;> simp [h]

/-- A link that fails the liveness test is deactivated and not counted. -/
theorem fuse_link_dead (isLocal : Bool) (wth jth : ℚ) (now : ℕ) (l : LinkStatus)
    (h : Master.link_is_live now l = false) :
    Master.fuse_link isLocal wth jth now l = ({ l with active := false }, false) := by
  unfold Master.fuse_link
  rw [h]
  simp

/-- An already-inactive link always fails the liveness test. -/
theorem link_is_live_inactive (now : ℕ) (l : LinkStatus) :
    Master.link_is_live now { l with active := false } = false := by
  simp [Master.link_is_live]

/-! ## Claim theorems -/

/-- Claim C1: in every fusion pass on the master, with `active_count` the
number of links counted active at evaluation time, `detection_count` the
number of those with room or motion set, and `motion_count` the number with
motion set, the fused room status equals `detection_count ≥ quorum` and the
fused motion status equals `room && motion_count ≥ quorum`, where the quorum
is `2` when `active_count ≥ 2` and `1` otherwise. -/
theorem C1_fusion_quorum (s : MasterState) (now : ℕ) :
    (Master.fuse_detection_results now s).room_status
      = decide ((if 2 ≤ Master.active_links (Master.fuse_detection_results now s)
            then 2 else 1)
          ≤ Master.detecting_links (Master.fuse_detection_results now s)) ∧
    (Master.fuse_detection_results now s).human_status
      = ((Master.fuse_detection_results now s).room_status
         && decide ((if 2 ≤ Master.active_links (Master.fuse_detection_results now s)
              then 2 else 1)
            ≤ Master.moving_links (Master.fuse_detection_results now s))) := by
  have h0 := Master.fuse_link_active true s.wander_threshold s.jitter_threshold now s.link0
  have h1 := Master.fuse_link_active false s.wander_threshold s.jitter_threshold now s.link1
  have h2 := Master.fuse_link_active false s.wander_threshold s.jitter_threshold now s.link2
  unfold Master.fuse_detection_results Master.active_links Master.detecting_links
    Master.moving_links
  dsimp only
  rw [h0, h1, h2]
  exact ⟨rfl, rfl⟩

/-- Claim C2: after every fusion pass the published fused state satisfies
motion-implies-presence. -/
theorem C2_motion_implies_presence (s : MasterState) (now : ℕ)
    (h : (Master.fuse_detection_results now s).human_status = true) :
    (Master.fuse_detection_results now s).room_status = true := by
  unfold Master.fuse_detection_results at h ⊢
  dsimp only at h ⊢
  exact ((Bool.and_eq_true _ _).mp h).1

/-- Witness for C2 at a concrete state whose fusion reports motion. -/
theorem C2_witness :
    (Master.fuse_detection_results 0 demoMaster).room_status = true :=
  C2_motion_implies_presence demoMaster 0 (by decide)

/-- Claim C3: a link whose `last_update` lies `3000` ms or more before the
evaluation time is marked inactive by the fusion pass and contributes to
none of the counts — the pass behaves exactly as if the link had already
been marked inactive. -/
theorem C3_stale_link_excluded (i : ℕ) (s : MasterState) (now : ℕ)
    (hi : i < 3)
    (hba : (getLink i s).last_update ≤ now)
    (hrange : now - (getLink i s).last_update < U32_MOD)
    (hstale : LINK_TIMEOUT_MS ≤ now - (getLink i s).last_update) :
    (getLink i (Master.fuse_detection_results now s)).active = false ∧
    Master.fuse_detection_results now s
      = Master.fuse_detection_results now (deactivateLink i s) := by
  have hdead : Master.link_is_live now (getLink i s) = false := by
    have he : u32_sub now (getLink i s).last_update = now - (getLink i s).last_update :=
      u32_sub_eq_sub _ _ hba hrange
    have hge : ¬ (u32_sub now (getLink i s).last_update < LINK_TIMEOUT_MS) := by
      rw [he]; omega
    simp [Master.link_is_live, hge]
  interval_cases i
  · simp only [getLink] at hdead
    have d0 := fuse_link_dead true s.wander_threshold s.jitter_threshold now s.link0 hdead
    have d0' := fuse_link_dead true s.wander_threshold s.jitter_threshold now
      { s.link0 with active := false } (link_is_live_inactive now s.link0)
    exact ⟨by simp [getLink, Master.fuse_detection_results, d0],
      by simp [Master.fuse_detection_results, deactivateLink, d0, d0']⟩
  · simp only [getLink] at hdead
    have d1 := fuse_link_dead false s.wander_threshold s.jitter_threshold now s.link1 hdead
    have d1' := fuse_link_dead false s.wander_threshold s.jitter_threshold now
      { s.link1 with active := false } (link_is_live_inactive now s.link1)
    exact ⟨by simp [getLink, Master.fuse_detection_results, d1],
      by simp [Master.fuse_detection_results, deactivateLink, d1, d1']⟩
  · simp only [getLink] at hdead
    have d2 := fuse_link_dead false s.wander_threshold s.jitter_threshold now s.link2 hdead
    have d2' := fuse_link_dead false s.wander_threshold s.jitter_threshold now
      { s.link2 with active := false } (link_is_live_inactive now s.link2)
    exact ⟨by simp [getLink, Master.fuse_detection_results, d2],
      by simp [Master.fuse_detection_results, deactivateLink, d2, d2']⟩

/-- Witness for C3: a link last heard from at time `0`, evaluated at time
`3000`, is dropped even though its stored flags are set. -/
theorem C3_witness :
    (getLink 1 (Master.fuse_detection_results 3000 demoMaster)).active = false ∧
    Master.fuse_detection_results 3000 demoMaster
      = Master.fuse_detection_results 3000 (deactivateLink 1 demoMaster) :=
  C3_stale_link_excluded 1 demoMaster 3000 (by decide) (by decide) (by decide) (by decide)

/-- Claim C8: the smoothing helpers match their closed-form definitions —
`trimmean` sorts ascending, drops `⌊len·percent/2⌋` elements from each end
and averages the rest; `median` sorts ascending and takes the middle
element; on `[1,2,3,4,5]` with a 50% trim both equal `3`. -/
theorem C8_smoothing_closed_forms :
    (∀ l : List ℚ, ∀ percent : ℚ, 5 ≤ l.length →
        2 * (((l.length : ℚ) * percent / 2).floor).toNat < l.length →
        trimmean l percent = trimmedMeanSpec l percent) ∧
    (∀ l : List ℚ, 5 ≤ l.length → median l = medianSpec l) ∧
    trimmean [1, 2, 3, 4, 5] (1/2) = 3 ∧ median [1, 2, 3, 4, 5] = 3 := by
  refine ⟨fun l p h5 htrim => trimmean_eq_trimmedMeanSpec l p (by omega) htrim,
    fun l h5 => median_eq_medianSpec l, ?_, ?_⟩
  · with_unfolding_all decide
  · with_unfolding_all decide

/-- Witness for C8 on the five-sample fixture window. -/
theorem C8_witness :
    trimmean [1, 2, 3, 4, 5] (1/2) = trimmedMeanSpec [1, 2, 3, 4, 5] (1/2) ∧
    median [1, 2, 3, 4, 5] = medianSpec [1, 2, 3, 4, 5] :=
  ⟨C8_smoothing_closed_forms.1 [1, 2, 3, 4, 5] (1/2) (by decide)
      (by with_unfolding_all decide),
    C8_smoothing_closed_forms.2.1 [1, 2, 3, 4, 5] (by decide)⟩

/-- Claim C4 counterexample: the claim asserts that any wander/jitter
threshold at or below the `0.0001` epsilon forces `room`/`motion` to
`false` on the master's local link as well; but the master gates only on
`threshold > 0`, so the positive threshold `1/16384 < 1/10000` still
reports presence and motion for an active link. -/
theorem C4_counterexample :
    (0 < (1:ℚ)/16384 ∧ (1:ℚ)/16384 < 1/10000) ∧
    subEpsilonLink.active = true ∧
    (Master.recalculate_link_status (1/16384) (1/16384) subEpsilonLink).room_status = true ∧
    (Master.recalculate_link_status (1/16384) (1/16384) subEpsilonLink).human_status = true := by
  with_unfolding_all decide

/-- Claim C4 (amended): the slave's classifier reports no presence whenever
its wander threshold is at or below the `0.0001` epsilon and no motion
whenever its jitter threshold is at or below the epsilon, while the
master's local link suppresses presence/motion only for thresholds at or
below `0` (a positive threshold below the epsilon can still trigger). -/
theorem C4_amended_threshold_gate :
    (∀ wth jth : ℚ, ∀ l : LinkStatus, l.active = true → wth ≤ 0 →
        (Master.recalculate_link_status wth jth l).room_status = false) ∧
    (∀ wth jth : ℚ, ∀ l : LinkStatus, l.active = true → jth ≤ 0 →
        (Master.recalculate_link_status wth jth l).human_status = false) ∧
    (∀ nodeId now ls : ℕ, ∀ s : DetectState, ∀ w j : ℚ, ∀ r : ℤ,
        4 ≤ s.buff_count → s.wander_threshold ≤ 1/10000 →
        (slaveStep nodeId now ls s w j r).state.room_status = false) ∧
    (∀ nodeId now ls : ℕ, ∀ s : DetectState, ∀ w j : ℚ, ∀ r : ℤ,
        4 ≤ s.buff_count → s.jitter_threshold ≤ 1/10000 →
        (slaveStep nodeId now ls s w j r).state.human_status = false) := by
  refine ⟨?_, ?_, ?_, ?_⟩
  · intro wth jth l hact hw
    simp [Master.recalculate_link_status, hact, not_lt.mpr hw]
  · intro wth jth l hact hj
    simp [Master.recalculate_link_status, hact, not_lt.mpr hj]
  · intro nodeId now ls s w j r h5 hw
    have hd : decide ((1:ℚ)/10000 < s.wander_threshold) = false :=
      decide_eq_false (not_lt.mpr hw)
    rw [slaveStep_state_warm nodeId now ls s w j r h5]
    dsimp only
    rw [hd, Bool.false_and]
  · intro nodeId now ls s w j r h5 hj
    have hd : decide ((1:ℚ)/10000 < s.jitter_threshold) = false :=
      decide_eq_false (not_lt.mpr hj)
    rw [slaveStep_state_warm nodeId now ls s w j r h5]
    dsimp only
    rw [hd, Bool.false_and]

/-- Witness for the amended C4 at threshold `0` on the master and threshold
`0.0001` on the slave. -/
theorem C4_witness :
    (Master.recalculate_link_status 0 1 demoLink).room_status = false ∧
    (Master.recalculate_link_status 1 0 demoLink).human_status = false ∧
    (slaveStep 2 0 0 uncalibratedSlave 1 1 0).state.room_status = false ∧
    (slaveStep 2 0 0 uncalibratedSlave 1 1 0).state.human_status = false :=
  ⟨C4_amended_threshold_gate.1 0 1 demoLink rfl le_rfl,
   C4_amended_threshold_gate.2.1 1 0 demoLink rfl le_rfl,
   C4_amended_threshold_gate.2.2.1 2 0 0 uncalibratedSlave 1 1 0 (by decide)
     (by with_unfolding_all decide),
   C4_amended_threshold_gate.2.2.2 2 0 0 uncalibratedSlave 1 1 0 (by decide)
     (by with_unfolding_all decide)⟩

/-- Claim C5 counterexample: while `calibrating = true` the master still
fuses and publishes `room`/`motion` from the live links, and the slave
still computes and stores `room_status`/`human_status` from its samples —
neither node forces `room = motion = false` in its state. -/
theorem C5_counterexample :
    calibratingMaster.calibrating = true ∧
    (Master.fuse_detection_results 0 calibratingMaster).calibrating = true ∧
    (Master.fuse_detection_results 0 calibratingMaster).room_status = true ∧
    (Master.fuse_detection_results 0 calibratingMaster).human_status = true ∧
    calibratingSlave.calibrating = true ∧
    (slaveStep 2 0 0 calibratingSlave 1 1 0).state.calibrating = true ∧
    (slaveStep 2 0 0 calibratingSlave 1 1 0).state.room_status = true ∧
    (slaveStep 2 0 0 calibratingSlave 1 1 0).state.human_status = true := by
  with_unfolding_all decide

/-- Claim C5 (amended): during calibration, detection is suppressed only at
the presentation layer: the master's fusion ignores the calibrating flag
entirely (same fused output), and the slave still computes and stores its
classification but shows the calibrating LED and withholds its report to
the master. -/
theorem C5_amended_calibration_suppression :
    (∀ now : ℕ, ∀ s : MasterState,
        Master.fuse_detection_results now { s with calibrating := true }
          = { Master.fuse_detection_results now s with calibrating := true }) ∧
    (∀ nodeId now ls : ℕ, ∀ s : DetectState, ∀ w j : ℚ, ∀ r : ℤ,
        (slaveStep nodeId now ls { s with calibrating := true } w j r).state
          = { (slaveStep nodeId now ls s w j r).state with calibrating := true } ∧
        (slaveStep nodeId now ls { s with calibrating := true } w j r).report = none ∧
        ((slaveStep nodeId now ls { s with calibrating := true } w j r).led = none ∨
         (slaveStep nodeId now ls { s with calibrating := true } w j r).led
           = some (false, false, true))) := by
  constructor
  · intro now s
    unfold Master.fuse_detection_results
    dsimp only
  · intro nodeId now ls s w j r
    unfold slaveStep
    by_cases h5 : s.buff_count + 1 < 5
    · rw [if_pos h5, if_pos h5]
      exact ⟨rfl, rfl, Or.inl rfl⟩
    · rw [if_neg h5, if_neg h5]
      dsimp only
      rw [if_pos rfl]
      refine ⟨?_, rfl, Or.inr rfl⟩
      split
      · rfl
      · split <;> rfl

/-- Claim C6: after warm-up, the slave's motion status equals
`jitter_threshold > ε && votes ≥ 2`, where a vote is counted for each of the
last five raw jitter samples `x` (walked in reverse-chronological order)
with `x * jitter_sensitivity > jitter_threshold`, or
`x * jitter_sensitivity > jitter_smoothed` and `x > 0.0002`. -/
theorem C6_motion_votes (nodeId now ls : ℕ) (s : DetectState) (w j : ℚ) (r : ℤ)
    (h5 : 4 ≤ s.buff_count) :
    (slaveStep nodeId now ls s w j r).state.human_status
      = (let st := (slaveStep nodeId now ls s w j r).state
         let votes := (List.range 5).countP (fun i =>
           let x := st.jitter_buff.getD ((st.buff_count - 1 - i) % RADAR_BUFF_MAX_LEN) 0
           decide (s.jitter_threshold < x * s.jitter_sensitivity)
             || (decide (median st.jitter_buff < x * s.jitter_sensitivity)
                 && decide ((1:ℚ)/5000 < x)))
         decide ((1:ℚ)/10000 < s.jitter_threshold) && decide (2 ≤ votes)) := by
  rw [slaveStep_state_warm nodeId now ls s w j r h5]
  dsimp only
  by_cases hj : (1:ℚ)/10000 < s.jitter_threshold
  · have hd : decide ((1:ℚ)/10000 < s.jitter_threshold) = true := decide_eq_true hj
    rw [hd]
    simp only [move_count, hd, Bool.true_and]
  · have hd : decide ((1:ℚ)/10000 < s.jitter_threshold) = false :=
      decide_eq_false (not_lt.mpr (le_of_not_lt hj))
    rw [hd]
    simp only [Bool.false_and]

/-- Witness for C6 on a warmed-up slave with uniform readings. -/
theorem C6_witness :
    (slaveStep 2 0 0 calibratingSlave 1 1 0).state.human_status
      = (let st := (slaveStep 2 0 0 calibratingSlave 1 1 0).state
         let votes := (List.range 5).countP (fun i =>
           let x := st.jitter_buff.getD ((st.buff_count - 1 - i) % RADAR_BUFF_MAX_LEN) 0
           decide (calibratingSlave.jitter_threshold < x * calibratingSlave.jitter_sensitivity)
             || (decide (median st.jitter_buff < x * calibratingSlave.jitter_sensitivity)
                 && decide ((1:ℚ)/5000 < x)))
         decide ((1:ℚ)/10000 < calibratingSlave.jitter_threshold) && decide (2 ≤ votes)) :=
  C6_motion_votes 2 0 0 calibratingSlave 1 1 0 (by decide)

set_option maxRecDepth 2000 in
/-- Claim C7 counterexample: the slave's collapsed presence rule is *not*
behaviorally identical to the master's local-link rule: with the same
smoothed wander `1`, sensitivity `1/4` and threshold `1/16384` (positive
but below the `0.0001` epsilon) the slave reports no presence while the
master's rule reports presence. -/
theorem C7_counterexample :
    trimmean (slaveStep 2 0 0 subEpsilonSlave 1 1 0).state.wander_buff (1/2) = 1 ∧
    subEpsilonSlave.wander_sensitivity = 1/4 ∧
    (0 < subEpsilonSlave.wander_threshold ∧
      subEpsilonSlave.wander_threshold < 1/10000) ∧
    (slaveStep 2 0 0 subEpsilonSlave 1 1 0).state.room_status = false ∧
    subEpsilonLink.wander = 1 ∧
    subEpsilonLink.wander_sensitivity = 1/4 ∧
    (Master.recalculate_link_status (1/16384) (1/16384) subEpsilonLink).room_status = true := by
  refine ⟨?_, ?_, ?_, ?_, ?_, ?_, ?_⟩ <;> with_unfolding_all decide

/-- Claim C7 (amended): the slave's presence-vote loop evaluates a constant
condition five times, so the count is `0` or `5` and the status collapses to
the single comparison `has_threshold && wander_smoothed * sensitivity >
threshold`; this coincides with the master's local rule whenever the
threshold is non-positive or exceeds the `0.0001` epsilon, but differs on
thresholds strictly between `0` and the epsilon. -/
theorem C7_presence_vote_collapse :
    (∀ (has : Bool) (wavg wsens wth : ℚ),
        someone_count has wavg wsens wth = 0 ∨ someone_count has wavg wsens wth = 5) ∧
    (∀ nodeId now ls : ℕ, ∀ s : DetectState, ∀ w j : ℚ, ∀ r : ℤ, 4 ≤ s.buff_count →
        (slaveStep nodeId now ls s w j r).state.room_status
          = (decide ((1:ℚ)/10000 < s.wander_threshold)
             && decide (s.wander_threshold
                  < trimmean (slaveStep nodeId now ls s w j r).state.wander_buff (1/2)
                    * s.wander_sensitivity))) ∧
    (∀ wth jth : ℚ, ∀ l : LinkStatus, l.active = true →
        (wth ≤ 0 ∨ (1:ℚ)/10000 < wth) →
        (Master.recalculate_link_status wth jth l).room_status
          = (decide ((1:ℚ)/10000 < wth)
             && decide (wth < l.wander * l.wander_sensitivity))) := by
  refine ⟨?_, ?_, ?_⟩
  · intro has wavg wsens wth
    rw [someone_count_eq]
    split
    · exact Or.inr rfl
    · exact Or.inl rfl
  · intro nodeId now ls s w j r h5
    rw [slaveStep_state_warm nodeId now ls s w j r h5]
    dsimp only
    rw [someone_count_eq]
    cases hh : decide ((1:ℚ)/10000 < s.wander_threshold) <;>
      cases hc : decide (s.wander_threshold
        < trimmean (s.wander_buff.set (s.buff_count % RADAR_BUFF_MAX_LEN) w) (1/2)
          * s.wander_sensitivity) <;>
      simp [hh, hc]
  · intro wth jth l hact hgate
    rcases hgate with hle | hgt
    · have h1 : ¬ (0 < wth) := not_lt.mpr hle
      have hd : decide ((1:ℚ)/10000 < wth) = false :=
        decide_eq_false (not_lt.mpr (le_trans hle (by norm_num)))
      rw [hd, Bool.false_and]
      simp [Master.recalculate_link_status, hact, h1]
    · have h1 : 0 < wth := lt_trans (by norm_num) hgt
      have hd : decide ((1:ℚ)/10000 < wth) = true := decide_eq_true hgt
      rw [hd, Bool.true_and]
      simp [Master.recalculate_link_status, hact, h1]

/-- Witness for the amended C7: vote collapse on a concrete warmed-up slave
and agreement with the master's rule at the calibrated threshold `1/100`. -/
theorem C7_witness :
    (someone_count true 1 (3/20) (1/100) = 0 ∨ someone_count true 1 (3/20) (1/100) = 5) ∧
    (slaveStep 2 0 0 subEpsilonSlave 1 1 0).state.room_status
      = (decide ((1:ℚ)/10000 < subEpsilonSlave.wander_threshold)
         && decide (subEpsilonSlave.wander_threshold
              < trimmean (slaveStep 2 0 0 subEpsilonSlave 1 1 0).state.wander_buff (1/2)
                * subEpsilonSlave.wander_sensitivity)) ∧
    (Master.recalculate_link_status (1/100) (1/1000) demoLink).room_status
      = (decide ((1:ℚ)/10000 < (1:ℚ)/100)
         && decide ((1:ℚ)/100 < demoLink.wander * demoLink.wander_sensitivity)) :=
  ⟨C7_presence_vote_collapse.1 true 1 (3/20) (1/100),
   C7_presence_vote_collapse.2.1 2 0 0 subEpsilonSlave 1 1 0 (by decide),
   C7_presence_vote_collapse.2.2 (1/100) (1/1000) demoLink rfl
     (Or.inr (by norm_num))⟩

/-- Claim C9 counterexample: the claim asserts a slave also rejects
out-of-range sensitivities, but a slave applying a `SetSensitivity`
addressed to it copies the values unconditionally: the out-of-range value
`100` replaces the stored `0.15`/`0.20` pair. -/
theorem C9_counterexample :
    ¬ ((100:ℚ) ≤ 5) ∧
    slaveInit.wander_sensitivity = 3/20 ∧
    slaveInit.jitter_sensitivity = 1/5 ∧
    (slave_set_sensitivity 2 2 100 100 slaveInit).wander_sensitivity = 100 ∧
    (slave_set_sensitivity 2 2 100 100 slaveInit).jitter_sensitivity = 100 := by
  refine ⟨?_, ?_, ?_, ?_, ?_⟩ <;> with_unfolding_all decide

/-- Claim C9 (amended): the master's per-link update rejects each value
outside `[0.001, 5.0]`, leaving the stored sensitivity unchanged without
surfacing an error; a slave, in contrast, applies whatever values a
`SetSensitivity` command addressed to it carries, with no range validation
of its own (range enforcement happens only at the master before sending). -/
theorem C9_amended_sensitivity_validation :
    (∀ link : ℤ, ∀ ws js : ℚ, ∀ s : MasterState, ∀ i : ℕ,
        (ws < 1/1000 ∨ 5 < ws) →
        (getLink i (http_post_sensitivity_update link ws js s)).wander_sensitivity
          = (getLink i s).wander_sensitivity) ∧
    (∀ link : ℤ, ∀ ws js : ℚ, ∀ s : MasterState, ∀ i : ℕ,
        (js < 1/1000 ∨ 5 < js) →
        (getLink i (http_post_sensitivity_update link ws js s)).jitter_sensitivity
          = (getLink i s).jitter_sensitivity) ∧
    (∀ nodeId : ℕ, ∀ ws js : ℚ, ∀ s : DetectState,
        (slave_set_sensitivity nodeId nodeId ws js s).wander_sensitivity = ws ∧
        (slave_set_sensitivity nodeId nodeId ws js s).jitter_sensitivity = js) := by
  refine ⟨?_, ?_, ?_⟩
  · intro link ws js s i hout
    have hw : ¬ (1/1000 ≤ ws ∧ ws ≤ 5) := by
      rcases hout with h | h <;> rintro ⟨h1, h2⟩ <;> linarith
    unfold http_post_sensitivity_update
    split
    · rfl
    · split
      · unfold getLink
        split <;> simp [sens_upd_wander_out ws js _ hw]
      · split
        · unfold getLink
          split <;> [skip; split] <;> simp [sens_upd_wander_out ws js _ hw]
        · unfold getLink
          split <;> [skip; split] <;> simp [sens_upd_wander_out ws js _ hw]
  · intro link ws js s i hout
    have hj : ¬ (1/1000 ≤ js ∧ js ≤ 5) := by
      rcases hout with h | h <;> rintro ⟨h1, h2⟩ <;> linarith
    unfold http_post_sensitivity_update
    split
    · rfl
    · split
      · unfold getLink
        split <;> simp [sens_upd_jitter_out ws js _ hj]
      · split
        · unfold getLink
          split <;> [skip; split] <;> simp [sens_upd_jitter_out ws js _ hj]
        · unfold getLink
          split <;> [skip; split] <;> simp [sens_upd_jitter_out ws js _ hj]
  · intro nodeId ws js s
    unfold slave_set_sensitivity
    rw [if_pos rfl]
    exact ⟨rfl, rfl⟩

/-- Witness for the amended C9: `100` is rejected by the master (stored
value kept) and applied verbatim by the matching slave. -/
theorem C9_witness :
    (getLink 0 (http_post_sensitivity_update 0 100 (1/5) masterInit)).wander_sensitivity
      = (getLink 0 masterInit).wander_sensitivity ∧
    (getLink 1 (http_post_sensitivity_update 1 (3/20) 100 masterInit)).jitter_sensitivity
      = (getLink 1 masterInit).jitter_sensitivity ∧
    (slave_set_sensitivity 2 2 (7/2) (1/2) slaveInit).wander_sensitivity = 7/2 ∧
    (slave_set_sensitivity 2 2 (7/2) (1/2) slaveInit).jitter_sensitivity = 1/2 :=
  ⟨C9_amended_sensitivity_validation.1 0 100 (1/5) masterInit 0 (Or.inr (by norm_num)),
   C9_amended_sensitivity_validation.2.1 1 (3/20) 100 masterInit 1 (Or.inr (by norm_num)),
   (C9_amended_sensitivity_validation.2.2 2 (7/2) (1/2) slaveInit).1,
   (C9_amended_sensitivity_validation.2.2 2 (7/2) (1/2) slaveInit).2⟩

set_option maxRecDepth 2000 in
/-- Claim C10: a slave booting without persisted settings starts with the
non-zero default thresholds `0.01` and `0.001`, both above the `0.0001`
epsilon, and without any calibration a run of strong samples makes it
report presence and motion. -/
theorem C10_uncalibrated_defaults_detect :
    slaveInit.wander_threshold = 1/100 ∧
    slaveInit.jitter_threshold = 1/1000 ∧
    (1:ℚ)/10000 < slaveInit.wander_threshold ∧
    (1:ℚ)/10000 < slaveInit.jitter_threshold ∧
    slaveInit.calibrating = false ∧
    (slaveRun (List.replicate 7 (13, 1)) slaveInit).room_status = true ∧
    (slaveRun (List.replicate 7 (13, 1)) slaveInit).human_status = true := by
  refine ⟨?_, ?_, ?_, ?_, ?_, ?_, ?_⟩ <;> with_unfolding_all decide
